import Mathlib

/-!
Shallow embedding of the billing and settlement core of a small car-rental
management application (a Flask/SQLAlchemy program, `app.py`).

Dates are modelled as proleptic Gregorian ordinals (`Int`), exactly the
values returned by the Python method `date.toordinal()`; subtracting two ordinals
gives the day difference, matching `(d2 - d1).days`.  Monetary amounts
(`Float` columns in the source) are modelled as rationals; nullable columns
become `Option`.  The Python falsy-coalescing `x or d` is modelled by `pyOr`
helpers that treat `none` and `0` alike, as Python does for `None` and `0`.

The mutable database session is modelled as an explicit `DB` record of
entity lists; each request handler becomes a pure function from `DB` (plus
its form parameters) to a result, returning `Option`/`Except` where the
source can 404 or reject the request.
-/

namespace CarRental

/-- Value of Python `datetime.date.max` (9999-12-31) as an ordinal; used by
the overlap check in `add_rental` for open-ended rentals (`r.end_date or date.max`). -/
def dateMax : Int := 3652059

/-- Ordinal of 2024-01-01 (used in the billing scenario of the spec). -/
def d20240101 : Int := 738886

/-- Ordinal of 2024-02-15 (45 days after 2024-01-01). -/
def d20240215 : Int := 738931

/-- Python `x or d` on an optional integer: `None` and `0` both fall back to `d`. -/
def pyOrInt (x : Option Int) (d : Int) : Int :=
  match x with
  | none => d
  | some v => if v = 0 then d else v

/-- Python `x or d` on an optional amount: `None` and `0.0` both fall back to `d`. -/
def pyOrQ (x : Option ℚ) (d : ℚ) : ℚ :=
  match x with
  | none => d
  | some v => if v = 0 then d else v

/-- Source `Fine` model: a traffic fine billed against a (car, customer) pair. -/
structure Fine where
  id : Nat
  car_id : Nat
  customer_id : Nat
  date : Int
  amount : Option ℚ
  paid : Bool
  settled_via : Option String
deriving Repr, DecidableEq

/-- Source `Damage` model: damage cost billed against a (car, customer) pair;
structurally identical to `Fine`. -/
structure Damage where
  id : Nat
  car_id : Nat
  customer_id : Nat
  date : Int
  amount : Option ℚ
  paid : Bool
  settled_via : Option String
deriving Repr, DecidableEq

/-- Source `Salik` model: toll costs over a date range, attached to a rental and its car. -/
structure Salik where
  id : Nat
  car_id : Nat
  rental_id : Nat
  start_date : Int
  end_date : Int
  amount : ℚ
  paid : Bool
  settled_via : Option String
deriving Repr, DecidableEq

/-- Source `Payment` model: a payment recorded on a rental. -/
structure Payment where
  id : Nat
  rental_id : Nat
  amount : Option ℚ
  date : Int
  location : Option String
deriving Repr, DecidableEq

/-- Source `Booking` model: reserves a car for an inclusive date range. -/
structure Booking where
  id : Nat
  car_id : Nat
  customer_id : Option Nat
  start_date : Int
  end_date : Int
  note : Option String
deriving Repr, DecidableEq

/-- Source `Rental` model: links one car and one customer over `[start_date, end_date-or-open]`,
with rent rates, deposit, settlement state and billing interval. -/
structure Rental where
  id : Nat
  car_id : Nat
  customer_id : Nat
  start_date : Int
  end_date : Option Int
  contract_type : String
  planned_rent : Option ℚ
  actual_rent : Option ℚ
  deposit : Option ℚ
  deposit_refunded : Bool
  deposit_refunded_amount : Option ℚ
  deposit_refund_date : Option Int
  billing_interval_days : Option Int
  next_billing_date : Option Int
deriving Repr, DecidableEq

/-- The relational store: the entity tables the billing/settlement core reads
and writes.  (Cars and customers are identified by their ids only; no other
car/customer column is consulted by the core.) -/
structure DB where
  rentals : List Rental
  fines : List Fine
  damages : List Damage
  saliks : List Salik
  payments : List Payment
  bookings : List Booking
deriving Repr, DecidableEq

/-- Source `date_in_range` from `app.py`: true iff `start ≤ d ≤ end`, bounds inclusive. -/
def date_in_range (d start stop : Int) : Bool :=
  decide (start ≤ d) && decide (d ≤ stop)

/-- Source `Rental.query.filter_by(car_id=carId)`: the rentals of a given car, in insertion order. -/
def carRentals (db : DB) (carId : Nat) : List Rental :=
  db.rentals.filter (fun r => r.car_id == carId)

/-- The bookings of a given car, in insertion order (`car.bookings`). -/
def carBookings (db : DB) (carId : Nat) : List Booking :=
  db.bookings.filter (fun b => b.car_id == carId)

/-- Source `Rental.query.get(rental_id)`: keyed lookup of a rental. -/
def findRental (db : DB) (rid : Nat) : Option Rental :=
  db.rentals.find? (fun r => r.id == rid)

/-- The condition tested on each rental by `is_rented_today` and by the
`availability` route: the rental covers `today`
(`r.end_date is None or r.end_date >= today`, and `r.start_date <= today`). -/
def rentalActiveOn (r : Rental) (today : Int) : Bool :=
  (match r.end_date with
   | none => true
   | some e => decide (today ≤ e)) && decide (r.start_date ≤ today)

/-- Source `is_rented_today` from `app.py`: some rental of the car covers `today`. -/
def is_rented_today (db : DB) (carId : Nat) (today : Int) : Bool :=
  (carRentals db carId).any (fun r => rentalActiveOn r today)

/-- Source `is_booked_today` from `app.py`: some booking of the car contains `today`. -/
def is_booked_today (db : DB) (carId : Nat) (today : Int) : Bool :=
  (carBookings db carId).any (fun b => date_in_range today b.start_date b.end_date)

/-- Car status as shown by the `availability` route. -/
inductive AvailStatus
  | Rented
  | Booked
  | Available
deriving Repr, DecidableEq

/-- The auxiliary `info` string of the `availability` route, structured:
`blank` for the empty string, `availableFrom d` for "Available from d", `openEnded` for
"Open ended", `bookedUntil d` for "Booked until d". -/
inductive AvailInfo
  | blank
  | availableFrom (d : Int)
  | openEnded
  | bookedUntil (d : Int)
deriving Repr, DecidableEq

/-- One row of the `availability` route for a single car: its status today and
the auxiliary availability info, computed exactly as in `app.py` (first
matching rental/booking in insertion order wins). -/
def availability_row (db : DB) (carId : Nat) (today : Int) : AvailStatus × AvailInfo :=
  if is_rented_today db carId today then
    match (carRentals db carId).find? (fun r => rentalActiveOn r today) with
    | some r =>
      (AvailStatus.Rented,
        match r.end_date with
        | some e => AvailInfo.availableFrom (e + 1)
        | none => AvailInfo.openEnded)
    | none => (AvailStatus.Rented, AvailInfo.blank)
  else if is_booked_today db carId today then
    match (carBookings db carId).find? (fun b => date_in_range today b.start_date b.end_date) with
    | some b => (AvailStatus.Booked, AvailInfo.bookedUntil b.end_date)
    | none => (AvailStatus.Booked, AvailInfo.blank)
  else (AvailStatus.Available, AvailInfo.blank)

/-! ## Billing engine (`rental_due_summary`) -/

/-- Source `period_end` in `rental_due_summary`:
`rental.end_date if rental.end_date and rental.end_date < today else today`. -/
def period_end (r : Rental) (today : Int) : Int :=
  match r.end_date with
  | some e => if e < today then e else today
  | none => today

/-- Source `days_active = (period_end - rental.start_date).days`. -/
def days_active (r : Rental) (today : Int) : Int :=
  period_end r today - r.start_date

/-- The billing interval used by `rental_due_summary`:
`rental.billing_interval_days or 30`. -/
def billing_days (r : Rental) : Int :=
  pyOrInt r.billing_interval_days 30

/-- Source `intervals = (days_active // (rental.billing_interval_days or 30)) + 1`;
Python `//` is floor division, i.e. `Int.fdiv`. -/
def intervals (r : Rental) (today : Int) : Int :=
  (days_active r today).fdiv (billing_days r) + 1

/-- Source `rent_rate = rental.actual_rent if rental.actual_rent is not None
else rental.planned_rent or 0.0`. -/
def rent_rate (r : Rental) : ℚ :=
  match r.actual_rent with
  | some a => a
  | none => pyOrQ r.planned_rent 0

/-- Source `base_due = rent_rate * intervals`. -/
def base_due (r : Rental) (today : Int) : ℚ :=
  rent_rate r * (intervals r today : ℚ)

/-! ## Charge ledger queries -/

/-- Source `[f for f in rental.customer.fines if f.car_id == rental.car_id and not f.paid]`. -/
def outstanding_fines (db : DB) (r : Rental) : List Fine :=
  db.fines.filter (fun f => f.customer_id == r.customer_id && f.car_id == r.car_id && !f.paid)

/-- Source `[d for d in rental.customer.damages if d.car_id == rental.car_id and not d.paid]`. -/
def outstanding_damages (db : DB) (r : Rental) : List Damage :=
  db.damages.filter (fun d => d.customer_id == r.customer_id && d.car_id == r.car_id && !d.paid)

/-- Source `[s for s in rental.salik_entries if not s.paid]`. -/
def outstanding_salik (db : DB) (r : Rental) : List Salik :=
  db.saliks.filter (fun s => s.rental_id == r.id && !s.paid)

/-- Source `sum(x.amount or 0 for x in l)` for optional amounts. -/
def sumAmounts (l : List (Option ℚ)) : ℚ :=
  (l.map (fun a => pyOrQ a 0)).sum

/-- Source `charges_due` in `rental_due_summary`: outstanding fines + damages + Salik. -/
def charges_due (db : DB) (r : Rental) : ℚ :=
  sumAmounts ((outstanding_fines db r).map Fine.amount) +
    sumAmounts ((outstanding_damages db r).map Damage.amount) +
    ((outstanding_salik db r).map (fun s => pyOrQ (some s.amount) 0)).sum

/-- Source `rental.payments`: payments recorded on a rental, in insertion order. -/
def rental_payments (db : DB) (r : Rental) : List Payment :=
  db.payments.filter (fun p => p.rental_id == r.id)

/-- Source `total_payments = sum(p.amount or 0 for p in rental.payments)`. -/
def total_payments (db : DB) (r : Rental) : ℚ :=
  sumAmounts ((rental_payments db r).map Payment.amount)

/-- Source `due_amount = base_due + charges_due - total_payments` in `rental_due_summary`. -/
def due_amount (db : DB) (r : Rental) (today : Int) : ℚ :=
  base_due r today + charges_due db r - total_payments db r

/-! ## Settlement engine (`settle_rental`) -/

/-- Source `total_charges` in `settle_rental`: sum of the amounts of the outstanding
fines and damages for the (car, customer) pair of the rental plus its unpaid Salik. -/
def total_charges (db : DB) (r : Rental) : ℚ :=
  sumAmounts ((outstanding_fines db r).map Fine.amount) +
    sumAmounts ((outstanding_damages db r).map Damage.amount) +
    ((outstanding_salik db r).map (fun s => pyOrQ (some s.amount) 0)).sum

/-- The GET half of `settle_rental`: the settlement preview, a pure query
returning `(total_charges, refundable)` with
`refundable = max(deposit - total_charges, 0)` and `deposit = rental.deposit or 0`. -/
def settle_preview (db : DB) (r : Rental) : ℚ × ℚ :=
  let total := total_charges db r
  let deposit := pyOrQ r.deposit 0
  (total, max (deposit - total) 0)

/-- The POST half of `settle_rental`: commit the settlement.  Looks up the
rental (404 → `none`), marks every outstanding fine/damage/Salik gathered in
the preview `paid = true, settled_via = "deposit"`, records the deposit refund
on the rental, and closes an open-ended rental at `today`.  The source has no
already-settled guard: the commit runs regardless of `deposit_refunded`. -/
def settle_commit (db : DB) (rid : Nat) (today : Int) : Option DB :=
  match findRental db rid with
  | none => none
  | some r =>
    let refundable := (settle_preview db r).2
    some
      { rentals := db.rentals.map (fun x =>
          if x.id == rid then
            { x with
              deposit_refunded := true
              deposit_refunded_amount := some refundable
              deposit_refund_date := some today
              end_date := match x.end_date with
                | none => some today
                | some e => some e
              contract_type := match x.end_date with
                | none => "fixed"
                | some _ => x.contract_type }
          else x)
        fines := db.fines.map (fun f =>
          if f.customer_id == r.customer_id && f.car_id == r.car_id && !f.paid then
            { f with paid := true, settled_via := some "deposit" }
          else f)
        damages := db.damages.map (fun d =>
          if d.customer_id == r.customer_id && d.car_id == r.car_id && !d.paid then
            { d with paid := true, settled_via := some "deposit" }
          else d)
        saliks := db.saliks.map (fun s =>
          if s.rental_id == r.id && !s.paid then
            { s with paid := true, settled_via := some "deposit" }
          else s)
        payments := db.payments
        bookings := db.bookings }

/-! ## Payments (`add_payment`) -/

/-- The POST half of `add_payment`: looks up the rental (404 → `none`),
records a new payment row, then for each selected fine/damage/Salik id fetches
the charge by primary key (`Fine.query.get(...)` etc.) and, when it exists,
marks it `paid = true, settled_via = "rent"`.  No validation restricts the
selected ids to the outstanding charges of the rental. -/
def add_payment (db : DB) (rid : Nat) (amount : ℚ) (payDate : Int)
    (location : Option String) (fine_ids damage_ids salik_ids : List Nat) : Option DB :=
  match findRental db rid with
  | none => none
  | some r =>
    some
      { db with
        payments := db.payments ++
          [{ id := db.payments.length + 1, rental_id := r.id, amount := some amount,
             date := payDate, location := location }]
        fines := db.fines.map (fun f =>
          if fine_ids.contains f.id then
            { f with paid := true, settled_via := some "rent" }
          else f)
        damages := db.damages.map (fun d =>
          if damage_ids.contains d.id then
            { d with paid := true, settled_via := some "rent" }
          else d)
        saliks := db.saliks.map (fun s =>
          if salik_ids.contains s.id then
            { s with paid := true, settled_via := some "rent" }
          else s) }

/-! ## Rental creation and editing -/

/-- The overlap test of `add_rental`:
`r.start_date <= (end_date or date.max) and start_date <= (r.end_date or date.max)`. -/
def rangesConflict (r : Rental) (newStart : Int) (newEnd : Option Int) : Bool :=
  decide (r.start_date ≤ newEnd.getD dateMax) && decide (newStart ≤ r.end_date.getD dateMax)

/-- The first existing rental of the car whose range conflicts with the new one
(the loop in `add_rental` breaks at the first conflict). -/
def firstConflict (db : DB) (carId : Nat) (newStart : Int) (newEnd : Option Int) :
    Option Rental :=
  (carRentals db carId).find? (fun r => rangesConflict r newStart newEnd)

/-- The POST half of `add_rental`: rejects the new rental (state unchanged,
conflicting rental reported) when any existing rental of the car — regardless
of its settlement status — has an intersecting range; otherwise appends the
new rental with `contract_type` derived from the end date, a 30-day billing
interval and `next_billing_date = start + 30`. -/
def add_rental (db : DB) (newId carId custId : Nat) (startD : Int) (endD : Option Int)
    (planned actual deposit : Option ℚ) : Except Rental DB :=
  match firstConflict db carId startD endD with
  | some conflict => Except.error conflict
  | none =>
    Except.ok
      { db with
        rentals := db.rentals ++
          [{ id := newId, car_id := carId, customer_id := custId,
             start_date := startD, end_date := endD,
             contract_type := if endD.isSome then "fixed" else "open",
             planned_rent := planned, actual_rent := actual, deposit := deposit,
             deposit_refunded := false, deposit_refunded_amount := none,
             deposit_refund_date := none,
             billing_interval_days := some 30,
             next_billing_date := some (startD + 30) }] }

/-- The POST half of `edit_rental`: looks up the rental (404 → `none`) and
overwrites its fields from the form.  The source performs no overlap check on
edit: any date range is accepted and persisted. -/
def edit_rental (db : DB) (rid carId custId : Nat) (startD : Int) (endD : Option Int)
    (planned actual deposit : Option ℚ) : Option DB :=
  match findRental db rid with
  | none => none
  | some _ =>
    some
      { db with
        rentals := db.rentals.map (fun x =>
          if x.id == rid then
            { x with
              car_id := carId, customer_id := custId,
              start_date := startD, end_date := endD,
              contract_type := if endD.isSome then "fixed" else "open",
              planned_rent := planned, actual_rent := actual, deposit := deposit }
          else x) }

/-! ## Basic lemmas about the embedding -/

/-- Python `x or 0` on an optional amount agrees with `Option.getD 0`. -/
theorem pyOrQ_zero (x : Option ℚ) : pyOrQ x 0 = x.getD 0 := by
  cases x with
  | none => rfl
  | some v =>
    simp only [pyOrQ, Option.getD_some]
    split <;> simp_all

/-- Python `a or 0` on a present amount is the amount itself. -/
theorem pyOrQ_some_zero (a : ℚ) : pyOrQ (some a) 0 = a := by
  rw [pyOrQ_zero, Option.getD_some]

/-- Lemma: `rentalActiveOn` unfolded to the phrasing of the spec: the rental has started by
`today` and its end date, when present, has not passed. -/
theorem rentalActiveOn_iff (r : Rental) (today : Int) :
    rentalActiveOn r today = true ↔
      r.start_date ≤ today ∧ ∀ e ∈ r.end_date, today ≤ e := by
  cases h : r.end_date <;>
    simp [rentalActiveOn, h, and_comm]

/-- Lemma: `is_rented_today` unfolded: some rental of the car covers `today`. -/
theorem is_rented_today_iff (db : DB) (carId : Nat) (today : Int) :
    is_rented_today db carId today = true ↔
      ∃ r ∈ db.rentals, r.car_id = carId ∧ r.start_date ≤ today ∧
        ∀ e ∈ r.end_date, today ≤ e := by
  simp only [is_rented_today, carRentals, List.any_eq_true, List.mem_filter,
    beq_iff_eq, rentalActiveOn_iff]
  constructor
  · rintro ⟨r, ⟨hr, hcar⟩, hact⟩
    exact ⟨r, hr, hcar, hact⟩
  · rintro ⟨r, hr, hcar, hact⟩
    exact ⟨r, ⟨hr, hcar⟩, hact⟩

/-- Lemma: `is_booked_today` unfolded: some booking of the car contains `today`. -/
theorem is_booked_today_iff (db : DB) (carId : Nat) (today : Int) :
    is_booked_today db carId today = true ↔
      ∃ b ∈ db.bookings, b.car_id = carId ∧ b.start_date ≤ today ∧ today ≤ b.end_date := by
  simp only [is_booked_today, carBookings, List.any_eq_true, List.mem_filter,
    beq_iff_eq, date_in_range, Bool.and_eq_true, decide_eq_true_eq]
  constructor
  · rintro ⟨b, ⟨hb, hcar⟩, h1, h2⟩
    exact ⟨b, hb, hcar, h1, h2⟩
  · rintro ⟨b, hb, hcar, h1, h2⟩
    exact ⟨b, ⟨hb, hcar⟩, h1, h2⟩

/-- The billing period end is monotone in the query date. -/
theorem period_end_mono (r : Rental) {a b : Int} (hab : a ≤ b) :
    period_end r a ≤ period_end r b := by
  cases h : r.end_date with
  | none => simpa [period_end, h] using hab
  | some e =>
    simp only [period_end, h]
    split_ifs <;> omega

/-- Floor division by a positive divisor is monotone. -/
theorem fdiv_mono {a b c : Int} (hc : 0 < c) (hab : a ≤ b) : a.fdiv c ≤ b.fdiv c := by
  rw [Int.fdiv_eq_ediv _ hc.le, Int.fdiv_eq_ediv _ hc.le]
  exact Int.ediv_le_ediv hc hab

/-- The number of billed intervals is monotone in the query date whenever the
billing interval is positive. -/
theorem intervals_mono (r : Rental) {a b : Int} (hpos : 0 < billing_days r)
    (hab : a ≤ b) : intervals r a ≤ intervals r b := by
  have h1 : days_active r a ≤ days_active r b := by
    simp only [days_active]
    have := period_end_mono r hab
    omega
  simp only [intervals]
  have := fdiv_mono hpos h1
  omega

/-! ## Concrete entities used by scenarios, witnesses and counterexamples -/

/-- Ordinal of 2024-01-05. -/
def dJan5 : Int := 738890

/-- Ordinal of 2024-01-10. -/
def dJan10 : Int := 738895

/-- Ordinal of 2024-01-11. -/
def dJan11 : Int := 738896

/-- Ordinal of 2024-01-15. -/
def dJan15 : Int := 738900

/-- Ordinal of 2024-01-20. -/
def dJan20 : Int := 738905

/-- Billing scenario rental from the spec: start 2024-01-01, open ended,
30-day interval, actual rent 3000. -/
def scenarioRental : Rental :=
  { id := 1
    car_id := 1
    customer_id := 1
    start_date := d20240101
    end_date := none
    contract_type := "open"
    planned_rent := none
    actual_rent := some 3000
    deposit := none
    deposit_refunded := false
    deposit_refunded_amount := none
    deposit_refund_date := none
    billing_interval_days := some 30
    next_billing_date := some (d20240101 + 30) }

/-- A misconfigured but storable rental: end date (day 0) before start date
(day 10).  Neither `add_rental` nor `edit_rental` validates `start ≤ end`. -/
def cexC1rental : Rental :=
  { scenarioRental with start_date := 10, end_date := some 0 }

/-- A rental with a negative agreed rent (the forms accept any float). -/
def cexC8rental : Rental :=
  { scenarioRental with start_date := 0, actual_rent := some (-3000) }

/-! ## Claim C1 -/

/-- Claim C1, counterexample: the claim asserts at least one interval is counted
once `asOf ≥ start_date`, but for a storable rental whose end date (day 0) lies
before its start date (day 10), at `asOf = 10 ≥ start_date` the computation
yields `periodEnd = 0`, `daysActive = -10` and `intervalsElapsed = 0 < 1`. -/
theorem C1_counterexample :
    cexC1rental.start_date ≤ (10 : Int) ∧ ¬ (1 ≤ intervals cexC1rental 10) := by
  decide

/-- Claim C1, amended: the rent-due computation sets `periodEnd` to the end date
when set and earlier than `asOf`, else `asOf`; `daysActive` to the day count from
`start_date` to `periodEnd`; `intervalsElapsed` to `floor(daysActive /
billingIntervalDays) + 1`; the rate to `actual_rent` when set, else
`planned_rent`, else 0; and `baseDue` to rate times intervals.  At least one
interval is counted once `asOf ≥ start_date`, provided additionally the billing
interval is positive and the end date, when set, is not before the start date.
The scenario start=2024-01-01, no end, interval 30, actual rent 3000,
asOf=2024-02-15 yields daysActive=45, intervalsElapsed=2, baseDue=6000. -/
theorem C1_rent_due (r : Rental) (asOf : Int)
    (hwf : ∀ e ∈ r.end_date, r.start_date ≤ e)
    (hpos : 0 < billing_days r)
    (hstart : r.start_date ≤ asOf) :
    period_end r asOf = (match r.end_date with
      | some e => if e < asOf then e else asOf
      | none => asOf)
    ∧ days_active r asOf = period_end r asOf - r.start_date
    ∧ intervals r asOf = (days_active r asOf).fdiv (billing_days r) + 1
    ∧ rent_rate r = (match r.actual_rent with
      | some a => a
      | none => r.planned_rent.getD 0)
    ∧ base_due r asOf = rent_rate r * (intervals r asOf : ℚ)
    ∧ 1 ≤ intervals r asOf
    ∧ days_active scenarioRental d20240215 = 45
    ∧ intervals scenarioRental d20240215 = 2
    ∧ base_due scenarioRental d20240215 = 6000 := by
  refine ⟨rfl, rfl, rfl, ?_, rfl, ?_, by decide, by decide, ?_⟩
  · simp only [rent_rate, pyOrQ_zero]
  · have hda : 0 ≤ days_active r asOf := by
      have hpe : r.start_date ≤ period_end r asOf := by
        cases h : r.end_date with
        | none => simpa [period_end, h] using hstart
        | some e =>
          have he : r.start_date ≤ e := hwf e h
          simp only [period_end, h]
          split_ifs <;> omega
      simp only [days_active]
      omega
    have : 0 ≤ (days_active r asOf).fdiv (billing_days r) := by
      rw [Int.fdiv_eq_ediv _ hpos.le]
      exact Int.ediv_nonneg hda hpos.le
    simp only [intervals]
    omega
  · simp only [base_due]
    rw [show intervals scenarioRental d20240215 = 2 from by decide]
    norm_num [rent_rate, scenarioRental]

/-- Claim C1, witness: the amended theorem applied to the scenario rental at
asOf = 2024-02-15. -/
theorem C1_rent_due_witness :
    (∀ e ∈ scenarioRental.end_date, scenarioRental.start_date ≤ e)
    ∧ 0 < billing_days scenarioRental
    ∧ scenarioRental.start_date ≤ d20240215
    ∧ 1 ≤ intervals scenarioRental d20240215 := by
  refine ⟨by simp [scenarioRental], by decide, by decide, ?_⟩
  exact (C1_rent_due scenarioRental d20240215 (by simp [scenarioRental]) (by decide)
    (by decide)).2.2.2.2.2.1

/-! ## Claim C8 -/

/-- Claim C8, counterexample: for a storable rental with a negative agreed rent
(actual_rent = -3000, the forms accept any float) and fixed parameters, baseDue
strictly decreases from query date 0 to query date 45. -/
theorem C8_counterexample :
    (0 : Int) ≤ 45 ∧ base_due cexC8rental 45 < base_due cexC8rental 0 := by
  refine ⟨by decide, ?_⟩
  simp only [base_due]
  rw [show intervals cexC8rental 0 = 1 from by decide,
    show intervals cexC8rental 45 = 2 from by decide]
  norm_num [rent_rate, cexC8rental, scenarioRental]

/-- Claim C8, amended: for a rental with fixed parameters, baseDue is
monotonically non-decreasing in the query date, provided the effective rent rate
is non-negative and the billing interval is positive. -/
theorem C8_base_due_mono (r : Rental) (a b : Int)
    (hrate : 0 ≤ rent_rate r) (hpos : 0 < billing_days r) (hab : a ≤ b) :
    base_due r a ≤ base_due r b := by
  have hi : intervals r a ≤ intervals r b := intervals_mono r hpos hab
  have hc : ((intervals r a : Int) : ℚ) ≤ ((intervals r b : Int) : ℚ) := by
    exact_mod_cast hi
  simpa [base_due] using mul_le_mul_of_nonneg_left hc hrate

/-- Claim C8, witness: the amended monotonicity theorem applied to the scenario
rental between 2024-01-01 and 2024-02-15. -/
theorem C8_base_due_mono_witness :
    0 ≤ rent_rate scenarioRental ∧ 0 < billing_days scenarioRental
    ∧ d20240101 ≤ d20240215
    ∧ base_due scenarioRental d20240101 ≤ base_due scenarioRental d20240215 := by
  refine ⟨?_, by decide, by decide, ?_⟩
  · norm_num [rent_rate, scenarioRental]
  · exact C8_base_due_mono scenarioRental d20240101 d20240215
      (by norm_num [rent_rate, scenarioRental]) (by decide) (by decide)

/-! ## Claim C2 -/

/-- Claim C2: for every rental, the settlement preview computes totalCharges as
the sum of the amounts of the unpaid fines and damages matching the car and
customer of the rental plus its unpaid Salik entries, and refundable as
`max(deposit - totalCharges, 0)` with a missing deposit treated as 0; refundable
is never negative.  (The preview is the GET half of `settle_rental` and, as a
pure function of the store, changes no stored state.) -/
theorem C2_settle_preview (db : DB) (r : Rental) :
    (settle_preview db r).1 =
      ((outstanding_fines db r).map (fun f => f.amount.getD 0)).sum
      + ((outstanding_damages db r).map (fun d => d.amount.getD 0)).sum
      + ((outstanding_salik db r).map Salik.amount).sum
    ∧ (settle_preview db r).2 = max (r.deposit.getD 0 - (settle_preview db r).1) 0
    ∧ 0 ≤ (settle_preview db r).2 := by
  refine ⟨?_, ?_, ?_⟩
  · simp only [settle_preview, total_charges, sumAmounts, List.map_map,
      Function.comp_def, pyOrQ_zero, pyOrQ_some_zero, Option.getD_some]
  · simp only [settle_preview, pyOrQ_zero]
  · simp only [settle_preview]
    exact le_max_right _ _

/-! ## Claim C6 -/

/-- Claim C6: for every rental and query date, the outstanding due amount equals
baseDue plus the sum of unpaid charge amounts for the car and customer of the
rental (including its unpaid Salik entries) minus the sum of the payment
amounts recorded on the rental; payments enter only as this flat aggregate
credit, never allocated to specific charges. -/
theorem C6_due_amount (db : DB) (r : Rental) (today : Int) :
    due_amount db r today =
      base_due r today
      + (((db.fines.filter (fun f =>
            f.customer_id == r.customer_id && f.car_id == r.car_id && !f.paid)).map
              (fun f => f.amount.getD 0)).sum
         + ((db.damages.filter (fun d =>
            d.customer_id == r.customer_id && d.car_id == r.car_id && !d.paid)).map
              (fun d => d.amount.getD 0)).sum
         + ((db.saliks.filter (fun s => s.rental_id == r.id && !s.paid)).map
              Salik.amount).sum)
      - ((db.payments.filter (fun p => p.rental_id == r.id)).map
          (fun p => p.amount.getD 0)).sum := by
  simp only [due_amount, charges_due, total_payments, rental_payments,
    outstanding_fines, outstanding_damages, outstanding_salik, sumAmounts,
    List.map_map, Function.comp_def, pyOrQ_zero, pyOrQ_some_zero, Option.getD_some]

/-! ## Claim C3 -/

/-- A rental that has already been settled: deposit 5000, first settlement
refunded 3500 on 2024-01-10, end date fixed at 2024-01-10. -/
def settledRental : Rental :=
  { scenarioRental with
    end_date := some dJan10
    contract_type := "fixed"
    deposit := some 5000
    deposit_refunded := true
    deposit_refunded_amount := some 3500
    deposit_refund_date := some dJan10 }

/-- Store holding only the already-settled rental (all its charges were
settled by the first commit, so none remain). -/
def dbC3 : DB :=
  { rentals := [settledRental]
    fines := []
    damages := []
    saliks := []
    payments := []
    bookings := [] }

/-- Claim C3, the code evaluated at the failing input: the POST branch of
`settle_rental` has no already-settled guard.  On a rental with
`deposit_refunded = true` (first settlement refunded 3500 of the 5000 deposit)
a second commit on 2024-01-15 succeeds instead of failing with AlreadySettled,
and overwrites `deposit_refunded_amount` with the full deposit 5000 and
`deposit_refund_date` with the new date. -/
theorem C3_no_already_settled_guard :
    settledRental.deposit_refunded = true
    ∧ (settle_commit dbC3 1 dJan15).isSome = true
    ∧ ((settle_commit dbC3 1 dJan15).bind (fun db2 => findRental db2 1)).map
        (fun r => (r.deposit_refunded_amount, r.deposit_refund_date))
      = some (some 5000, some dJan15) := by
  refine ⟨rfl, rfl, ?_⟩
  simp only [settle_commit, dbC3, settledRental, scenarioRental, findRental,
    settle_preview, total_charges, outstanding_fines, outstanding_damages,
    outstanding_salik, sumAmounts, pyOrQ, List.filter_nil, List.map_nil,
    List.sum_nil, List.map_cons, List.find?]
  norm_num

/-! ## Claim C4 -/

/-- An active, open-ended, unrefunded rental of car 1 starting 2024-01-01. -/
def rOpenCar1 : Rental := scenarioRental

/-- A rental of car 2 over 2024-01-05 .. 2024-01-15. -/
def rCar2 : Rental :=
  { scenarioRental with
    id := 2
    car_id := 2
    customer_id := 2
    start_date := dJan5
    end_date := some dJan15
    contract_type := "fixed" }

/-- Store with the active car-1 rental and an unrelated car-2 rental. -/
def dbC4 : DB :=
  { rentals := [rOpenCar1, rCar2]
    fines := []
    damages := []
    saliks := []
    payments := []
    bookings := [] }

/-- Store with a single rental of car 1 over 2024-01-01 .. 2024-01-10
(the overlap examples in the spec). -/
def rJanA : Rental :=
  { scenarioRental with end_date := some dJan10, contract_type := "fixed" }

/-- Store for the Jan 1 - Jan 10 overlap scenarios. -/
def dbJan : DB :=
  { rentals := [rJanA]
    fines := []
    damages := []
    saliks := []
    payments := []
    bookings := [] }

/-- Claim C4, counterexample: the claim asserts the overlap rejection also
covers rental edits, but `edit_rental` performs no overlap check.  Editing
rental 2 onto car 1 with range Jan 5 - Jan 15, which intersects the active
(non-refunded, open-ended) rental, is accepted and persisted. -/
theorem C4_counterexample :
    rOpenCar1.car_id = 1
    ∧ rOpenCar1.deposit_refunded = false
    ∧ rangesConflict rOpenCar1 dJan5 (some dJan15) = true
    ∧ ((edit_rental dbC4 2 1 1 dJan5 (some dJan15) none none none).bind
        (fun db2 => findRental db2 2)).map
          (fun r => (r.car_id, r.start_date, r.end_date))
      = some (1, dJan5, some dJan15) := by
  refine ⟨rfl, rfl, by decide, rfl⟩

/-- Lemma: `add_rental` rejects whenever some existing rental of the car — with no
regard to its settlement or activity status — has a conflicting range, and the
reported conflict is itself such a rental. -/
theorem add_rental_rejects_conflict (db : DB) (newId carId custId : Nat) (s : Int)
    (e : Option Int) (p a dep : Option ℚ)
    (hex : ∃ r ∈ db.rentals, r.car_id = carId ∧ rangesConflict r s e = true) :
    ∃ c, add_rental db newId carId custId s e p a dep = Except.error c ∧
      c ∈ db.rentals ∧ c.car_id = carId ∧ rangesConflict c s e = true := by
  obtain ⟨r, hr, hcar, hov⟩ := hex
  have hmem : r ∈ carRentals db carId := by
    simp only [carRentals, List.mem_filter, beq_iff_eq]
    exact ⟨hr, hcar⟩
  have hsome : (firstConflict db carId s e).isSome := by
    simp only [firstConflict]
    exact List.find?_isSome.mpr ⟨r, hmem, hov⟩
  obtain ⟨c, hc⟩ := Option.isSome_iff_exists.mp hsome
  simp only [firstConflict] at hc
  have hcmem : c ∈ carRentals db carId := List.mem_of_find?_eq_some hc
  have hccar : c.car_id = carId := by
    have := (List.mem_filter.mp hcmem).2
    simpa using this
  have hcp : rangesConflict c s e = true := by
    have := List.find?_some hc
    simpa using this
  refine ⟨c, ?_, (List.mem_filter.mp hcmem).1, hccar, hcp⟩
  simp only [add_rental, firstConflict, hc]

/-- Claim C4, amended: at rental creation the overlap check runs against every
existing rental of the car (absent end dates treated as `date.max`); any
intersection is rejected with the first conflicting rental identified and no
state persisted, and a conflict-free rental is appended; the ranges
[Jan 1, Jan 10] and [Jan 5, Jan 15] on one car are rejected as overlapping at
creation while [Jan 11, Jan 20] after [Jan 1, Jan 10] is accepted as adjacent.
Rental edits, however, perform no overlap check: any edit of an existing
rental is accepted. -/
theorem C4_overlap_rules :
    (∀ (db : DB) (newId carId custId : Nat) (s : Int) (e : Option Int)
        (p a dep : Option ℚ),
      (∃ r ∈ db.rentals, r.car_id = carId ∧ rangesConflict r s e = true) →
        ∃ c, add_rental db newId carId custId s e p a dep = Except.error c ∧
          c ∈ db.rentals ∧ c.car_id = carId ∧ rangesConflict c s e = true)
    ∧ (∀ (db : DB) (newId carId custId : Nat) (s : Int) (e : Option Int)
        (p a dep : Option ℚ),
      (∀ r ∈ db.rentals, r.car_id = carId → rangesConflict r s e = false) →
        ∃ db2, add_rental db newId carId custId s e p a dep = Except.ok db2 ∧
          db2.rentals = db.rentals ++
            [{ id := newId, car_id := carId, customer_id := custId,
               start_date := s, end_date := e,
               contract_type := if e.isSome then "fixed" else "open",
               planned_rent := p, actual_rent := a, deposit := dep,
               deposit_refunded := false, deposit_refunded_amount := none,
               deposit_refund_date := none,
               billing_interval_days := some 30,
               next_billing_date := some (s + 30) }])
    ∧ (∃ c, add_rental dbJan 2 1 1 dJan5 (some dJan15) none none none
        = Except.error c ∧ c = rJanA)
    ∧ (∃ db2, add_rental dbJan 2 1 1 dJan11 (some dJan20) none none none
        = Except.ok db2)
    ∧ (∀ (db : DB) (rid carId custId : Nat) (s : Int) (e : Option Int)
        (p a dep : Option ℚ) (r : Rental),
      findRental db rid = some r →
        (edit_rental db rid carId custId s e p a dep).isSome = true) := by
  refine ⟨?_, ?_, ⟨rJanA, rfl, rfl⟩, ⟨_, rfl⟩, ?_⟩
  · intro db newId carId custId s e p a dep hex
    exact add_rental_rejects_conflict db newId carId custId s e p a dep hex
  · intro db newId carId custId s e p a dep hno
    have hnone : firstConflict db carId s e = none := by
      simp only [firstConflict]
      refine List.find?_eq_none.mpr (fun r hr => ?_)
      have h1 := (List.mem_filter.mp hr).1
      have h2 : r.car_id = carId := by
        have := (List.mem_filter.mp hr).2
        simpa using this
      simp [hno r h1 h2]
    simp only [add_rental, hnone]
    exact ⟨_, rfl, rfl⟩
  · intro db rid carId custId s e p a dep r h
    simp only [edit_rental, h, Option.isSome_some]

/-- Claim C4, witness: the amended rejection rule applied to the store holding
the Jan 1 - Jan 10 rental of car 1, for a new Jan 5 - Jan 15 rental on car 1. -/
theorem C4_overlap_rules_witness :
    (∃ r ∈ dbJan.rentals, r.car_id = 1 ∧ rangesConflict r dJan5 (some dJan15) = true)
    ∧ ∃ c, add_rental dbJan 2 1 1 dJan5 (some dJan15) none none none
        = Except.error c ∧ c ∈ dbJan.rentals ∧ c.car_id = 1 ∧
          rangesConflict c dJan5 (some dJan15) = true := by
  have h : ∃ r ∈ dbJan.rentals, r.car_id = 1 ∧ rangesConflict r dJan5 (some dJan15) = true :=
    ⟨rJanA, List.mem_singleton_self rJanA, by decide, by decide⟩
  exact ⟨h, C4_overlap_rules.1 dbJan 2 1 1 dJan5 (some dJan15) none none none h⟩

/-! ## Claim C5 -/

/-- Settlement scenario rental from the spec: open ended, deposit 5000. -/
def rC5 : Rental := { scenarioRental with deposit := some 5000 }

/-- Outstanding fine of 1200 for the car and customer of the scenario rental. -/
def fineC5 : Fine :=
  { id := 1
    car_id := 1
    customer_id := 1
    date := dJan5
    amount := some 1200
    paid := false
    settled_via := none }

/-- Outstanding Salik (toll) entry of 300 for the scenario rental. -/
def salikC5 : Salik :=
  { id := 1
    car_id := 1
    rental_id := 1
    start_date := dJan5
    end_date := dJan10
    amount := 300
    paid := false
    settled_via := none }

/-- Store for the settlement scenario: deposit 5000, outstanding fine 1200,
outstanding toll 300. -/
def dbC5 : DB :=
  { rentals := [rC5]
    fines := [fineC5]
    damages := []
    saliks := [salikC5]
    payments := []
    bookings := [] }

/-- Claim C5: committing a settlement marks every outstanding charge gathered
in the preview (unpaid fines and damages for the car and customer of the
rental, plus its unpaid Salik entries) `paid = true, settled_via = "deposit"`,
leaves all other charges and the payments untouched, sets
`deposit_refunded = true`, `deposit_refunded_amount = refundable` and
`deposit_refund_date = today` on the rental, closing it at `today` when it had
no end date.  In the scenario with deposit 5000 and outstanding charges 1200
and 300, totalCharges is 1500, the refunded amount is 3500, and both charges
end up paid via deposit. -/
theorem C5_settle_commit (db : DB) (rid : Nat) (today : Int) (r : Rental)
    (h : findRental db rid = some r) :
    (∃ db2, settle_commit db rid today = some db2
      ∧ db2.fines = db.fines.map (fun f =>
          if f.customer_id = r.customer_id ∧ f.car_id = r.car_id ∧ f.paid = false
          then { f with paid := true, settled_via := some "deposit" } else f)
      ∧ db2.damages = db.damages.map (fun d =>
          if d.customer_id = r.customer_id ∧ d.car_id = r.car_id ∧ d.paid = false
          then { d with paid := true, settled_via := some "deposit" } else d)
      ∧ db2.saliks = db.saliks.map (fun s =>
          if s.rental_id = r.id ∧ s.paid = false
          then { s with paid := true, settled_via := some "deposit" } else s)
      ∧ db2.payments = db.payments ∧ db2.bookings = db.bookings
      ∧ (∀ x ∈ db.rentals, x.id = rid →
          { x with
            deposit_refunded := true
            deposit_refunded_amount := some (settle_preview db r).2
            deposit_refund_date := some today
            end_date := some (x.end_date.getD today)
            contract_type := if x.end_date = none then "fixed" else x.contract_type }
            ∈ db2.rentals))
    ∧ total_charges dbC5 rC5 = 1500
    ∧ (settle_preview dbC5 rC5).2 = 3500
    ∧ ((settle_commit dbC5 1 dJan15).bind (fun d2 => d2.fines.find? (fun f => f.id == 1))).map
        (fun f => (f.paid, f.settled_via)) = some (true, some "deposit")
    ∧ ((settle_commit dbC5 1 dJan15).bind (fun d2 => d2.saliks.find? (fun s => s.id == 1))).map
        (fun s => (s.paid, s.settled_via)) = some (true, some "deposit")
    ∧ ((settle_commit dbC5 1 dJan15).bind (fun d2 => findRental d2 1)).map
        (fun x => (x.deposit_refunded, x.deposit_refunded_amount, x.end_date))
      = some (true, some 3500, some dJan15) := by
  have htotal : total_charges dbC5 rC5 = 1500 := by
    simp only [total_charges, dbC5, rC5, fineC5, salikC5, scenarioRental,
      outstanding_fines, outstanding_damages, outstanding_salik, sumAmounts]
    norm_num [pyOrQ]
  have hrefund : (settle_preview dbC5 rC5).2 = 3500 := by
    have hdep : pyOrQ rC5.deposit 0 = 5000 := by norm_num [rC5, scenarioRental, pyOrQ]
    simp only [settle_preview, htotal, hdep]
    norm_num
  refine ⟨?_, htotal, hrefund, ?_, ?_, ?_⟩
  · simp only [settle_commit, h]
    refine ⟨_, rfl, ?_, ?_, ?_, rfl, rfl, ?_⟩
    · refine List.map_congr_left (fun f _ => ?_)
      simp only [Bool.and_eq_true, beq_iff_eq, Bool.not_eq_true', and_assoc]
    · refine List.map_congr_left (fun d _ => ?_)
      simp only [Bool.and_eq_true, beq_iff_eq, Bool.not_eq_true', and_assoc]
    · refine List.map_congr_left (fun s _ => ?_)
      simp only [Bool.and_eq_true, beq_iff_eq, Bool.not_eq_true']
    · intro x hx hid
      have hfun :
          (if x.id == rid then
            { x with
              deposit_refunded := true
              deposit_refunded_amount := some (settle_preview db r).2
              deposit_refund_date := some today
              end_date := match x.end_date with
                | none => some today
                | some e => some e
              contract_type := match x.end_date with
                | none => "fixed"
                | some _ => x.contract_type }
          else x)
          = { x with
              deposit_refunded := true
              deposit_refunded_amount := some (settle_preview db r).2
              deposit_refund_date := some today
              end_date := some (x.end_date.getD today)
              contract_type := if x.end_date = none then "fixed" else x.contract_type } := by
        cases hx2 : x.end_date <;> simp [hid, hx2]
      exact hfun ▸ List.mem_map_of_mem _ hx
  · have hc : settle_commit dbC5 1 dJan15 = some
        { rentals := dbC5.rentals.map (fun x =>
            if x.id == 1 then
              { x with
                deposit_refunded := true
                deposit_refunded_amount := some (settle_preview dbC5 rC5).2
                deposit_refund_date := some dJan15
                end_date := match x.end_date with
                  | none => some dJan15
                  | some e => some e
                contract_type := match x.end_date with
                  | none => "fixed"
                  | some _ => x.contract_type }
            else x)
          fines := dbC5.fines.map (fun f =>
            if f.customer_id == rC5.customer_id && f.car_id == rC5.car_id && !f.paid then
              { f with paid := true, settled_via := some "deposit" }
            else f)
          damages := dbC5.damages.map (fun d =>
            if d.customer_id == rC5.customer_id && d.car_id == rC5.car_id && !d.paid then
              { d with paid := true, settled_via := some "deposit" }
            else d)
          saliks := dbC5.saliks.map (fun s =>
            if s.rental_id == rC5.id && !s.paid then
              { s with paid := true, settled_via := some "deposit" }
            else s)
          payments := dbC5.payments
          bookings := dbC5.bookings } := rfl
    rw [hc]
    rfl
  · rfl
  · have hfind : ((settle_commit dbC5 1 dJan15).bind (fun d2 => findRental d2 1)).map
        (fun x => (x.deposit_refunded, x.deposit_refunded_amount, x.end_date))
        = some (true, some (settle_preview dbC5 rC5).2, some dJan15) := rfl
    rw [hfind, hrefund]

/-- Claim C5, witness: the settlement-commit theorem applied to the scenario
store at rental 1 on 2024-01-15. -/
theorem C5_settle_commit_witness :
    findRental dbC5 1 = some rC5
    ∧ ((settle_commit dbC5 1 dJan15).bind (fun d2 => findRental d2 1)).map
        (fun x => (x.deposit_refunded, x.deposit_refunded_amount, x.end_date))
      = some (true, some 3500, some dJan15) := by
  refine ⟨rfl, ?_⟩
  exact (C5_settle_commit dbC5 1 dJan15 rC5 rfl).2.2.2.2.2

/-! ## Claim C7 -/

/-- An outstanding fine of 200 that does belong to the car and customer of the
scenario rental. -/
def fineOwn : Fine :=
  { id := 5
    car_id := 1
    customer_id := 1
    date := dJan5
    amount := some 200
    paid := false
    settled_via := none }

/-- An outstanding fine of 500 on a different car and customer: it is not
among the currently-outstanding charges of the scenario rental. -/
def fineOther : Fine :=
  { id := 9
    car_id := 2
    customer_id := 2
    date := dJan5
    amount := some 500
    paid := false
    settled_via := none }

/-- Store for the payment-reconciliation scenario. -/
def dbC7 : DB :=
  { rentals := [scenarioRental]
    fines := [fineOwn, fineOther]
    damages := []
    saliks := []
    payments := []
    bookings := [] }

/-- Claim C7, counterexample: the claim asserts the selected ids are validated
to be a subset of the currently-outstanding charges of the rental and that a
non-outstanding selected id settles nothing, but `add_payment` fetches each
selected id by global primary key with no validation.  Recording a payment on
rental 1 (car 1, customer 1) with fine 9 selected — a fine of car 2 and
customer 2, not among the outstanding charges of rental 1 — marks that fine
`paid = true, settled_via = "rent"`. -/
theorem C7_counterexample :
    fineOther.car_id = 2
    ∧ fineOther.customer_id = 2
    ∧ (findRental dbC7 1).map (fun r => (r.car_id, r.customer_id)) = some (1, 1)
    ∧ (outstanding_fines dbC7 scenarioRental).map Fine.id = [5]
    ∧ ((add_payment dbC7 1 100 dJan5 none [9] [] []).bind
        (fun d2 => d2.fines.find? (fun f => f.id == 9))).map
          (fun f => (f.paid, f.settled_via))
      = some (true, some "rent") := by
  exact ⟨rfl, rfl, rfl, rfl, rfl⟩

/-- Claim C7, amended: recording a payment with selected charge-id lists marks
exactly the selected ids `paid = true, settled_via = "rent"` and appends the
payment, leaving unselected charges and all rentals unchanged; but the ids are
not validated against the currently-outstanding charges of the rental — any fine,
damage or Salik row in the store whose id is selected is marked, and a selected
id matching no stored charge is silently ignored. -/
theorem C7_add_payment (db : DB) (rid : Nat) (amount : ℚ) (payDate : Int)
    (loc : Option String) (fids dids sids : List Nat) (r : Rental)
    (h : findRental db rid = some r) :
    ∃ db2, add_payment db rid amount payDate loc fids dids sids = some db2
      ∧ db2.fines = db.fines.map (fun f =>
          if f.id ∈ fids then { f with paid := true, settled_via := some "rent" } else f)
      ∧ db2.damages = db.damages.map (fun d =>
          if d.id ∈ dids then { d with paid := true, settled_via := some "rent" } else d)
      ∧ db2.saliks = db.saliks.map (fun s =>
          if s.id ∈ sids then { s with paid := true, settled_via := some "rent" } else s)
      ∧ db2.rentals = db.rentals ∧ db2.bookings = db.bookings
      ∧ db2.payments = db.payments ++
          [{ id := db.payments.length + 1, rental_id := r.id, amount := some amount,
             date := payDate, location := loc }] := by
  simp only [add_payment, h]
  refine ⟨_, rfl, ?_, ?_, ?_, rfl, rfl, rfl⟩
  all_goals
    refine List.map_congr_left (fun x _ => ?_)
    simp

/-- Claim C7, witness: the amended theorem applied to the scenario store,
paying on rental 1 with fine 9 selected. -/
theorem C7_add_payment_witness :
    findRental dbC7 1 = some scenarioRental
    ∧ ∃ db2, add_payment dbC7 1 100 dJan5 none [9] [] [] = some db2
        ∧ db2.fines = dbC7.fines.map (fun f =>
            if f.id ∈ [9] then { f with paid := true, settled_via := some "rent" } else f) := by
  refine ⟨rfl, ?_⟩
  obtain ⟨db2, h1, h2, -⟩ := C7_add_payment dbC7 1 100 dJan5 none [9] [] [] scenarioRental rfl
  exact ⟨db2, h1, h2⟩

/-! ## Claim C9 -/

/-- The status component of an availability row, independent of the info
component: Rented when some rental covers today, else Booked when some booking
contains today, else Available. -/
theorem availability_row_fst (db : DB) (carId : Nat) (today : Int) :
    (availability_row db carId today).1 =
      if is_rented_today db carId today then AvailStatus.Rented
      else if is_booked_today db carId today then AvailStatus.Booked
      else AvailStatus.Available := by
  unfold availability_row
  cases hR : is_rented_today db carId today with
  | false =>
    cases hB : is_booked_today db carId today with
    | false => simp
    | true =>
      cases hfb : (carBookings db carId).find?
          (fun b => date_in_range today b.start_date b.end_date) <;> simp [hfb]
  | true =>
    cases hfr : (carRentals db carId).find? (fun r => rentalActiveOn r today) with
    | none => simp [hfr]
    | some r0 => cases r0.end_date <;> simp [hfr]

/-- Claim C9: the occupancy status is Rented iff some rental of the car has
started by `today` with an absent or not-yet-passed end date; otherwise Booked
iff some booking of the car contains `today` inclusively (rented takes
priority); otherwise Available.  When Rented, the auxiliary info reports the
day after the fixed end date of the active rental as the date the car is available
from, or "open ended" for an open-ended active rental; when Booked it reports
the end date of the booking. -/
theorem C9_availability (db : DB) (carId : Nat) (today : Int) :
    ((availability_row db carId today).1 = AvailStatus.Rented ↔
      ∃ r ∈ db.rentals, r.car_id = carId ∧ r.start_date ≤ today ∧
        ∀ e ∈ r.end_date, today ≤ e)
    ∧ ((availability_row db carId today).1 = AvailStatus.Booked ↔
      ¬ (∃ r ∈ db.rentals, r.car_id = carId ∧ r.start_date ≤ today ∧
          ∀ e ∈ r.end_date, today ≤ e)
      ∧ ∃ b ∈ db.bookings, b.car_id = carId ∧ b.start_date ≤ today ∧ today ≤ b.end_date)
    ∧ ((availability_row db carId today).1 = AvailStatus.Available ↔
      ¬ (∃ r ∈ db.rentals, r.car_id = carId ∧ r.start_date ≤ today ∧
          ∀ e ∈ r.end_date, today ≤ e)
      ∧ ¬ ∃ b ∈ db.bookings, b.car_id = carId ∧ b.start_date ≤ today ∧ today ≤ b.end_date)
    ∧ (∀ r, (carRentals db carId).find? (fun x => rentalActiveOn x today) = some r →
        (∀ e, r.end_date = some e →
          (availability_row db carId today).2 = AvailInfo.availableFrom (e + 1)) ∧
        (r.end_date = none →
          (availability_row db carId today).2 = AvailInfo.openEnded))
    ∧ (is_rented_today db carId today = false →
        ∀ b, (carBookings db carId).find?
            (fun x => date_in_range today x.start_date x.end_date) = some b →
          (availability_row db carId today).2 = AvailInfo.bookedUntil b.end_date) := by
  refine ⟨?_, ?_, ?_, ?_, ?_⟩
  · rw [availability_row_fst, ← is_rented_today_iff]
    cases hR : is_rented_today db carId today with
    | false =>
      cases hB : is_booked_today db carId today <;> simp
    | true => simp
  · rw [availability_row_fst, ← is_rented_today_iff, ← is_booked_today_iff]
    cases hR : is_rented_today db carId today with
    | false =>
      cases hB : is_booked_today db carId today <;> simp [hB]
    | true => simp
  · rw [availability_row_fst, ← is_rented_today_iff, ← is_booked_today_iff]
    cases hR : is_rented_today db carId today with
    | false =>
      cases hB : is_booked_today db carId today <;> simp [hB]
    | true => simp
  · intro r hr
    have hR : is_rented_today db carId today = true := by
      have hs : ((carRentals db carId).find? (fun x => rentalActiveOn x today)).isSome := by
        simp [hr]
      obtain ⟨x, hx, hpx⟩ := List.find?_isSome.mp hs
      simp only [is_rented_today, List.any_eq_true]
      exact ⟨x, hx, hpx⟩
    constructor
    · intro e he
      simp [availability_row, hR, hr, he]
    · intro he
      simp [availability_row, hR, hr, he]
  · intro hR b hb
    have hB : is_booked_today db carId today = true := by
      have hs : ((carBookings db carId).find?
          (fun x => date_in_range today x.start_date x.end_date)).isSome := by
        simp [hb]
      obtain ⟨x, hx, hpx⟩ := List.find?_isSome.mp hs
      simp only [is_booked_today, List.any_eq_true]
      exact ⟨x, hx, hpx⟩
    simp [availability_row, hR, hB, hb]

/-- Claim C9, witness: in the store holding the Jan 1 - Jan 10 rental of car 1, on
2024-01-05 the info component reports the car available from Jan 11, the day
after the end date of the active rental. -/
theorem C9_availability_witness :
    (carRentals dbJan 1).find? (fun x => rentalActiveOn x dJan5) = some rJanA
    ∧ rJanA.end_date = some dJan10
    ∧ (availability_row dbJan 1 dJan5).2 = AvailInfo.availableFrom (dJan10 + 1) := by
  refine ⟨rfl, rfl, ?_⟩
  exact ((C9_availability dbJan 1 dJan5).2.2.2.1 rJanA rfl).1 dJan10 rfl

/-! ## Claim C10 -/

/-- A past, fully settled rental of car 1 (Jan 1 - Jan 10 2024, deposit
refunded): not an active rental in the sense of the spec. -/
def rC10past : Rental :=
  { rJanA with
    deposit_refunded := true
    deposit_refunded_amount := some 3000
    deposit_refund_date := some dJan10 }

/-- Store whose only rental of car 1 is the settled past rental. -/
def dbC10 : DB :=
  { rentals := [rC10past]
    fines := []
    damages := []
    saliks := []
    payments := []
    bookings := [] }

/-- Claim C10: the overlap rejection in `add_rental` compares the new range against
every existing rental record of the car regardless of its settlement or
activity status (absent end dates treated as the maximum date): any
intersecting existing rental — the hypotheses place no condition on
`deposit_refunded` or on how the existing range relates to the present —
causes rejection.  Concretely, a new Jan 5 - Jan 15 rental on car 1 is
rejected because of the already-settled past rental Jan 1 - Jan 10, which an
active-rentals-only check would have ignored. -/
theorem C10_overlap_ignores_status (db : DB) (newId carId custId : Nat) (s : Int)
    (e : Option Int) (p a dep : Option ℚ) (r : Rental)
    (hr : r ∈ db.rentals) (hcar : r.car_id = carId)
    (hov : rangesConflict r s e = true) :
    (∃ c, add_rental db newId carId custId s e p a dep = Except.error c ∧
      c ∈ db.rentals ∧ c.car_id = carId ∧ rangesConflict c s e = true)
    ∧ rC10past.deposit_refunded = true
    ∧ (∀ e2 ∈ rC10past.end_date, e2 < dJan15)
    ∧ add_rental dbC10 2 1 1 dJan5 (some dJan15) none none none
      = Except.error rC10past := by
  refine ⟨?_, rfl, by decide, rfl⟩
  exact add_rental_rejects_conflict db newId carId custId s e p a dep ⟨r, hr, hcar, hov⟩

/-- Claim C10, witness: the rejection applied with the settled past rental as
the overlapping record. -/
theorem C10_overlap_ignores_status_witness :
    (rC10past ∈ dbC10.rentals ∧ rC10past.car_id = 1
      ∧ rangesConflict rC10past dJan5 (some dJan15) = true)
    ∧ ∃ c, add_rental dbC10 2 1 1 dJan5 (some dJan15) none none none
        = Except.error c ∧ c ∈ dbC10.rentals ∧ c.car_id = 1 ∧
          rangesConflict c dJan5 (some dJan15) = true := by
  have h1 : rC10past ∈ dbC10.rentals := List.mem_singleton_self rC10past
  have h2 : rC10past.car_id = 1 := rfl
  have h3 : rangesConflict rC10past dJan5 (some dJan15) = true := by decide
  exact ⟨⟨h1, h2, h3⟩,
    (C10_overlap_ignores_status dbC10 2 1 1 dJan5 (some dJan15) none none none
      rC10past h1 h2 h3).1⟩

end CarRental
